import Mathlib

/-!
Shallow embedding of the posture signal processing and session analytics
pipeline of the SELECED repository: the posture classifiers, streak
trackers, alert logic, session aggregation, daily-summary fold,
complementary filter, calibration and motor actuation, as implemented in
`src/my-app/src/App.js` (the React web app), `src/unnamed/part_001` (the
fitness-style React app), `src/unnamed/part_002` (the slouch-dashboard
React app) and `src/unnamed/part_000` (the Flutter app and the ESP32
firmware).  Floating-point angles and times are modelled by exact
rationals; millisecond timestamps and second counters by naturals.
-/

/-- The four-level posture quality state used by the JS app variants. -/
inductive PostureState
  | Excellent
  | Good
  | Fair
  | Poor
deriving DecidableEq

/-- Three-level status used by the Flutter app (`good`/`mild`/`bad`), the
slouch dashboard (`Good`/`Mild Slouch`/`Bad Slouch`) and the firmware. -/
inductive FwStatus
  | good
  | mild
  | bad
deriving DecidableEq

/-- Classification thresholds `{excellentThreshold, goodThreshold, fairThreshold}`
from the web app's settings. -/
structure Thresholds where
  excellent : ℚ
  good : ℚ
  fair : ℚ

namespace WebApp

/-- `getStatus` of `src/my-app/src/App.js` (lines 185-191): inclusive
comparisons of `|angle|` against the configured thresholds. -/
def getStatus (T : Thresholds) (angle : ℚ) : PostureState :=
  if |angle| ≤ T.excellent then .Excellent
  else if |angle| ≤ T.good then .Good
  else if |angle| ≤ T.fair then .Fair
  else .Poor

/-- One tick of the streak timer effect of `src/my-app/src/App.js`
(lines 284-298): while the session is active, a status of Excellent or Good
increments the streak by 1 and shows an achievement whenever the new value
is a multiple of 60; any other status resets the streak to 0.  Returns
(new streak, milestone emitted). -/
def streakTick (streak : ℕ) (st : PostureState) : ℕ × Bool :=
  if st = .Excellent ∨ st = .Good then
    let newStreak := streak + 1
    (newStreak, newStreak % 60 == 0)
  else
    (0, false)

end WebApp

namespace FitnessApp

/-- `getStatus` of `src/unnamed/part_001` (lines 29-35): strict comparisons
of `|angle|` against the hard-coded thresholds 5 / 15 / 25. -/
def getStatus (angle : ℚ) : PostureState :=
  if |angle| < 5 then .Excellent
  else if |angle| < 15 then .Good
  else if |angle| < 25 then .Fair
  else .Poor

/-- Streak tracking in `pollESP` of `src/unnamed/part_001` (lines 144-167):
Excellent or Good increments the streak, and an achievement is added only
when the new streak exceeds the best so far and equals exactly 60 or 300;
Poor resets the streak to 0; Fair falls into neither branch and leaves the
streak unchanged.  Returns (new streak, new best, achievement emitted). -/
def streakTick (streak best : ℕ) (st : PostureState) : ℕ × ℕ × Bool :=
  if st = .Excellent ∨ st = .Good then
    let newStreak := streak + 1
    if newStreak > best then
      (newStreak, newStreak, newStreak == 60 || newStreak == 300)
    else
      (newStreak, best, false)
  else if st = .Poor then
    (0, best, false)
  else
    (streak, best, false)

end FitnessApp

namespace FlutterApp

/-- `PostureReading.getPostureStatus` of `src/unnamed/part_000`
(lines 386-391): `|pitch| <= 10` is `good`, `|pitch| <= 20` is `mild`,
otherwise `bad`. -/
def getPostureStatus (pitch : ℚ) : FwStatus :=
  if |pitch| ≤ 10 then .good
  else if |pitch| ≤ 20 then .mild
  else .bad

end FlutterApp

namespace SlouchApp

/-- `getStatusFromAngle` of `src/unnamed/part_002` (lines 53-58): strict
comparisons of `|angle|` against 10 / 20. -/
def getStatusFromAngle (angle : ℚ) : FwStatus :=
  if |angle| < 10 then .good
  else if |angle| < 20 then .mild
  else .bad

end SlouchApp

namespace FlutterApp

/-- Totals of one sealed session, as passed to `endSession` in
`src/unnamed/part_000` (lines 264-281).  All counters are whole seconds. -/
structure SessionStats where
  totalDuration : ℕ
  goodPostureTime : ℕ
  badPostureTime : ℕ
deriving DecidableEq

/-- One row of the `daily_summaries` table of `src/unnamed/part_000`. -/
structure DailySummary where
  totalSessions : ℕ
  totalDuration : ℕ
  goodPostureTime : ℕ
  badPostureTime : ℕ
  averageBadMinutes : ℕ
deriving DecidableEq

/-- `_updateDailySummary` of `src/unnamed/part_000` (lines 294-330): when no
row exists for the date a fresh row is inserted with the session's totals;
otherwise every counter of the existing row is increased by the session's
totals (`~/` is Dart's truncating division, here on naturals). -/
def updateDailySummary : Option DailySummary → SessionStats → DailySummary
  | none, stats =>
    { totalSessions := 1
      totalDuration := stats.totalDuration
      goodPostureTime := stats.goodPostureTime
      badPostureTime := stats.badPostureTime
      averageBadMinutes := stats.badPostureTime / 60 }
  | some s, stats =>
    { totalSessions := s.totalSessions + 1
      totalDuration := s.totalDuration + stats.totalDuration
      goodPostureTime := s.goodPostureTime + stats.goodPostureTime
      badPostureTime := s.badPostureTime + stats.badPostureTime
      averageBadMinutes := (s.badPostureTime + stats.badPostureTime) / 60 }

/-- The running counters of `_startSession`'s one-second session timer in
`src/unnamed/part_000` (lines 564-580). -/
structure SessionAcc where
  sessionTime : ℕ
  goodPostureSeconds : ℕ
  badPostureSeconds : ℕ
deriving DecidableEq

/-- One tick of the session timer: `_sessionTime` always increments;
`_goodPostureSeconds` increments only on `good`, `_badPostureSeconds` only
on `bad`; a `mild` second increments neither per-state counter. -/
def sessionTick (a : SessionAcc) (st : FwStatus) : SessionAcc :=
  { sessionTime := a.sessionTime + 1
    goodPostureSeconds :=
      if st = .good then a.goodPostureSeconds + 1 else a.goodPostureSeconds
    badPostureSeconds :=
      if st = .bad then a.badPostureSeconds + 1 else a.badPostureSeconds }

/-- The session timer run over the stream of per-second posture statuses. -/
def runSession (l : List FwStatus) : SessionAcc :=
  l.foldl sessionTick ⟨0, 0, 0⟩

/-- The notification test in `_connectBluetooth` of `src/unnamed/part_000`
(lines 519-523): on every incoming reading, `_showNotification()` fires as
soon as the status is `bad` and the fresh random draw exceeds 0.95 — there
is no minimum dwell time and no cooldown state. -/
def btNotify (status : FwStatus) (randomDraw : ℚ) : Bool :=
  status == .bad && randomDraw > 95 / 100

/-- `_connectBluetooth` over a stream of (status, random draw) pairs: each
reading is tested independently. -/
def btNotifyRun (l : List (FwStatus × ℚ)) : List Bool :=
  l.map fun p => btNotify p.1 p.2

end FlutterApp

namespace SlouchApp

/-- A point of `sessionHistory` in `src/unnamed/part_002`: timestamp (ms),
angle, and the status label computed for it. -/
structure PointRec where
  t : ℕ
  angle : ℚ
  status : FwStatus
deriving DecidableEq

/-- `NOTIFY_DURATION_MS = 3000` of `src/unnamed/part_002` (line 38). -/
def NOTIFY_DURATION_MS : ℕ := 3000

/-- The notification state of `src/unnamed/part_002`: `badPostureStartTime`
and whether a notification is currently set (it is cleared only when the
session stops). -/
structure AlertState where
  badPostureStartTime : Option ℕ
  notification : Bool
deriving DecidableEq

/-- One tick of the notification logic of `src/unnamed/part_002`
(lines 94-121).  On a `bad` status: the first bad tick only records the
start time; later bad ticks raise the alert when more than
`NOTIFY_DURATION_MS` have elapsed since the recorded start and no
notification is set.  On any other status the start time is reset to null
(the 30-second branch can set a success notification but raises no alert).
Returns (new state, alert raised this tick). -/
def alertTick (st : AlertState) (status : FwStatus) (now : ℕ) :
    AlertState × Bool :=
  if status = .bad then
    match st.badPostureStartTime with
    | none => (⟨some now, st.notification⟩, false)
    | some t0 =>
      if now - t0 > NOTIFY_DURATION_MS && !st.notification then
        (⟨some t0, true⟩, true)
      else
        (st, false)
  else
    match st.badPostureStartTime with
    | some t0 =>
      (⟨none, if now - t0 > 30000 && !st.notification then true
              else st.notification⟩, false)
    | none => (⟨none, st.notification⟩, false)

/-- The notification logic run over a session's (status, timestamp) ticks;
returns the timestamps at which an alert was raised. -/
def runAlert : AlertState → List (FwStatus × ℕ) → List ℕ
  | _, [] => []
  | st, (s, t) :: rest =>
    let next := alertTick st s t
    (if next.2 then [t] else []) ++ runAlert next.1 rest

/-- The notification state at session start: no bad-posture start time, no
notification. -/
def initAlert : AlertState := ⟨none, false⟩

/-- There is a block of consecutive `bad` ticks at the head of the list
that reaches an entry with timestamp `t`. -/
def badLead (t : ℕ) : List (FwStatus × ℕ) → Bool
  | [] => false
  | (s, tHead) :: rest => s == .bad && (tHead == t || badLead t rest)

/-- The trace contains a run of consecutive `bad` ticks that starts at some
timestamp `t0` more than `NOTIFY_DURATION_MS` before `t` and reaches an
entry with timestamp `t`. -/
def ContainsBadRun (t : ℕ) (l : List (FwStatus × ℕ)) : Prop :=
  ∃ tail t0, List.IsSuffix tail l ∧
    tail.head? = some (FwStatus.bad, t0) ∧
    t0 + NOTIFY_DURATION_MS < t ∧ badLead t tail = true

/-- The accumulators of the summary statistics of `SummaryScreen` in
`src/unnamed/part_002` (lines 455-468). -/
structure SummaryAcc where
  badTime : ℕ
  mildTime : ℕ
  goodTime : ℕ
deriving DecidableEq

/-- One step of the `sessionHistory.forEach` accumulation: `bad` increments
`badTime`, `mild` increments `mildTime`, everything else `goodTime`. -/
def summaryTick (a : SummaryAcc) (p : PointRec) : SummaryAcc :=
  if p.status = .bad then { a with badTime := a.badTime + 1 }
  else if p.status = .mild then { a with mildTime := a.mildTime + 1 }
  else { a with goodTime := a.goodTime + 1 }

/-- The per-state second counters of the summary screen (1 s per point). -/
def summaryStats (hist : List PointRec) : SummaryAcc :=
  hist.foldl summaryTick ⟨0, 0, 0⟩

/-- The ordering key of the `topBadMoments` sort in `src/unnamed/part_002`
(line 473): `(a, b) => Math.abs(b.angle) - Math.abs(a.angle)`, i.e. `a`
comes before `b` when `|b.angle| <= |a.angle|`. -/
def worstOrder (a b : PointRec) : Prop := |b.angle| ≤ |a.angle|

instance : DecidableRel worstOrder := fun a b =>
  inferInstanceAs (Decidable (|b.angle| ≤ |a.angle|))

instance : IsTotal PointRec worstOrder :=
  ⟨fun a b => le_total |b.angle| |a.angle|⟩

instance : IsTrans PointRec worstOrder :=
  ⟨fun _ _ _ h1 h2 => le_trans h2 h1⟩

/-- `topBadMoments` of `src/unnamed/part_002` (lines 470-478): keep only the
`bad`-status points, sort them by decreasing `|angle|` (JavaScript's
`Array.prototype.sort` is stable, so a stable sort embeds it; ties keep
their original chronological order) and take the first three. -/
def topBadMoments (hist : List PointRec) : List PointRec :=
  (((hist.filter fun p => p.status == .bad).insertionSort worstOrder).take 3)

end SlouchApp

namespace Firmware

/-- `COMP_FILTER_COEFF = 0.98` of `src/unnamed/part_000` (line 1399). -/
def COMP_FILTER_COEFF : ℚ := 98 / 100

/-- One complementary-filter update of `loop()` in `src/unnamed/part_000`
(lines 1544-1545): `angle = A * (angle + gyro * dt) + (1 - A) * accel_angle`. -/
def fuse (alpha prior gyroRate dt accAngle : ℚ) : ℚ :=
  alpha * (prior + gyroRate * dt) + (1 - alpha) * accAngle

/-- One iteration's inputs to a single fusion axis: the gyro rate, the
elapsed time, and the accelerometer-only angle. -/
structure FuseSample where
  gyroRate : ℚ
  dt : ℚ
  accAngle : ℚ

/-- The filter iterated over a sequence of samples from initial angle `a0`. -/
def fuseRun (alpha a0 : ℚ) : List FuseSample → ℚ
  | [] => a0
  | s :: rest => fuseRun alpha (fuse alpha a0 s.gyroRate s.dt s.accAngle) rest

/-- One raw accelerometer reading (in g). -/
structure AccelSample where
  ax : ℚ
  ay : ℚ
  az : ℚ
deriving DecidableEq

/-- `acc_pitch = atan2(-ax, sqrt(ay^2 + az^2))` of `src/unnamed/part_000`
(lines 1428, 1535).  `at2` and `sq` stand for the C runtime's `atan2` and
`sqrt`, abstracted since real transcendental functions are not executable;
the expression applied to them is the source's. -/
def accPitch (at2 : ℚ → ℚ → ℚ) (sq : ℚ → ℚ) (s : AccelSample) : ℚ :=
  at2 (-s.ax) (sq (s.ay ^ 2 + s.az ^ 2))

/-- `acc_roll = atan2(ay, az)` of `src/unnamed/part_000` (lines 1429, 1536). -/
def accRoll (at2 : ℚ → ℚ → ℚ) (s : AccelSample) : ℚ :=
  at2 s.ay s.az

/-- `num_readings = 500` of `calibrateSensor` (line 1418). -/
def num_readings : ℕ := 500

/-- `calibrateSensor` of `src/unnamed/part_000` (lines 1417-1445): read
`num_readings` samples from the sensor, accumulate the per-sample
accelerometer-only pitch and roll, and set the offsets to `sum / 500`. -/
def calibrateSensor (at2 : ℚ → ℚ → ℚ) (sq : ℚ → ℚ)
    (source : ℕ → AccelSample) : ℚ × ℚ :=
  let readings := (List.range num_readings).map source
  let sums := readings.foldl
    (fun acc s => (acc.1 + accPitch at2 sq s, acc.2 + accRoll at2 s))
    ((0 : ℚ), (0 : ℚ))
  (sums.1 / (num_readings : ℚ), sums.2 / (num_readings : ℚ))

/-- The motor condition of `loop()` in `src/unnamed/part_000`
(lines 1568-1573): `digitalWrite(MOTOR_PIN, HIGH)` exactly when
`abs(final_roll) > 40 || abs(final_pitch) > 40`, otherwise LOW. -/
def motorCheck (final_roll final_pitch : ℚ) : Bool :=
  |final_roll| > 40 || |final_pitch| > 40

/-- The filter state kept across iterations of `loop()`: the two fused
angles (radians). -/
structure LoopState where
  angle_pitch : ℚ
  angle_roll : ℚ

/-- One iteration's sensor-derived inputs to `loop()`: the accelerometer
angles for this iteration, the gyro rates, and the freshly computed `dt`. -/
structure LoopInput where
  acc_pitch : ℚ
  acc_roll : ℚ
  gyro_pitch_rate : ℚ
  gyro_roll_rate : ℚ
  dt : ℚ

/-- What one iteration of `loop()` produces: the new filter state, the two
calibrated angles in degrees, and the motor pin level (true = HIGH). -/
structure LoopOutput where
  state : LoopState
  final_pitch : ℚ
  final_roll : ℚ
  motor : Bool

/-- One iteration of `loop()` in `src/unnamed/part_000` (lines 1521-1576):
fuse each axis, subtract the calibration offset and convert to degrees
(`radToDeg` abstracts the irrational constant `RAD_TO_DEG`), then drive the
motor pin from this iteration's final angles alone. -/
def loopStep (radToDeg pitch_offset roll_offset : ℚ) (st : LoopState)
    (inp : LoopInput) : LoopOutput :=
  let angle_pitch :=
    fuse COMP_FILTER_COEFF st.angle_pitch inp.gyro_pitch_rate inp.dt inp.acc_pitch
  let angle_roll :=
    fuse COMP_FILTER_COEFF st.angle_roll inp.gyro_roll_rate inp.dt inp.acc_roll
  let final_pitch := (angle_pitch - pitch_offset) * radToDeg
  let final_roll := (angle_roll - roll_offset) * radToDeg
  { state := ⟨angle_pitch, angle_roll⟩
    final_pitch := final_pitch
    final_roll := final_roll
    motor := motorCheck final_roll final_pitch }

end Firmware

/-- Claim C1 (amended).  The web app's `getStatus` classifies by `|angle|`
with inclusive boundaries: an angle exactly at a threshold gets the better
class.  The part_001 variant instead uses strict `<` against its fixed
thresholds 5/15/25, so an angle exactly at a threshold gets the more severe
class. -/
theorem c1_classifier_boundaries (T : Thresholds) (a : ℚ)
    (h1 : 0 < T.excellent) (h2 : T.excellent < T.good) (h3 : T.good < T.fair) :
    (WebApp.getStatus T a = .Excellent ↔ |a| ≤ T.excellent) ∧
    (WebApp.getStatus T a = .Good ↔ T.excellent < |a| ∧ |a| ≤ T.good) ∧
    (WebApp.getStatus T a = .Fair ↔ T.good < |a| ∧ |a| ≤ T.fair) ∧
    (WebApp.getStatus T a = .Poor ↔ T.fair < |a|) ∧
    (FitnessApp.getStatus a = .Excellent ↔ |a| < 5) ∧
    (FitnessApp.getStatus a = .Good ↔ 5 ≤ |a| ∧ |a| < 15) ∧
    (FitnessApp.getStatus a = .Fair ↔ 15 ≤ |a| ∧ |a| < 25) ∧
    (FitnessApp.getStatus a = .Poor ↔ 25 ≤ |a|) := by
  have w1 : WebApp.getStatus T a = .Excellent ↔ |a| ≤ T.excellent := by
    unfold WebApp.getStatus; split_ifs <;> simp_all <;> linarith
  have w2 : WebApp.getStatus T a = .Good ↔ T.excellent < |a| ∧ |a| ≤ T.good := by
    unfold WebApp.getStatus; split_ifs <;> simp_all <;> intro h <;> linarith
  have w3 : WebApp.getStatus T a = .Fair ↔ T.good < |a| ∧ |a| ≤ T.fair := by
    unfold WebApp.getStatus; split_ifs <;> simp_all <;> intro h <;> linarith
  have w4 : WebApp.getStatus T a = .Poor ↔ T.fair < |a| := by
    unfold WebApp.getStatus; split_ifs <;> simp_all <;> linarith
  have s1 : FitnessApp.getStatus a = .Excellent ↔ |a| < 5 := by
    unfold FitnessApp.getStatus; split_ifs <;> simp_all <;> linarith
  have s2 : FitnessApp.getStatus a = .Good ↔ 5 ≤ |a| ∧ |a| < 15 := by
    unfold FitnessApp.getStatus; split_ifs <;> simp_all <;> intro h <;> linarith
  have s3 : FitnessApp.getStatus a = .Fair ↔ 15 ≤ |a| ∧ |a| < 25 := by
    unfold FitnessApp.getStatus; split_ifs <;> simp_all <;> intro h <;> linarith
  have s4 : FitnessApp.getStatus a = .Poor ↔ 25 ≤ |a| := by
    unfold FitnessApp.getStatus; split_ifs <;> simp_all <;> linarith
  exact ⟨w1, w2, w3, w4, s1, s2, s3, s4⟩

/-- Witness for C1's amended theorem at thresholds (5, 15, 25) and angle 15:
the web app classifies the boundary angle as Good (the better class). -/
theorem c1_classifier_boundaries_witness :
    WebApp.getStatus ⟨5, 15, 25⟩ 15 = PostureState.Good ↔
      (5 : ℚ) < |(15 : ℚ)| ∧ |(15 : ℚ)| ≤ 15 :=
  (c1_classifier_boundaries ⟨5, 15, 25⟩ 15 (by norm_num) (by norm_num)
    (by norm_num)).2.1

/-- Counterexample to C1 as stated: with the valid thresholds 5 < 15 < 25,
the part_001 classifier maps the boundary angle 5 (which satisfies
`|5| <= excellent`) to Good, not Excellent: its comparisons are strict. -/
theorem c1_strict_boundary_counterexample :
    ((0 : ℚ) < 5 ∧ (5 : ℚ) < 15 ∧ (15 : ℚ) < 25) ∧
    |(5 : ℚ)| ≤ 5 ∧
    FitnessApp.getStatus 5 = PostureState.Good ∧
    FitnessApp.getStatus 5 ≠ PostureState.Excellent := by decide

/-- Claim C9 (confirmed): every classifier in the repository depends only on
the magnitude of the angle, so negating the angle never changes the class. -/
theorem c9_classify_symmetric (T : Thresholds) (a : ℚ) :
    WebApp.getStatus T a = WebApp.getStatus T (-a) ∧
    FitnessApp.getStatus a = FitnessApp.getStatus (-a) ∧
    FlutterApp.getPostureStatus a = FlutterApp.getPostureStatus (-a) ∧
    SlouchApp.getStatusFromAngle a = SlouchApp.getStatusFromAngle (-a) := by
  unfold WebApp.getStatus FitnessApp.getStatus FlutterApp.getPostureStatus
    SlouchApp.getStatusFromAngle
  rw [abs_neg]
  exact ⟨rfl, rfl, rfl, rfl⟩

/-- Claim C2 (amended).  In the web app's streak timer, a tick with state
Excellent or Good increments the streak by exactly 1 and a milestone fires
exactly when the updated value is a (positive) multiple of 60, while any
other state (including Fair) resets the streak to 0 with no milestone.  In
the part_001 variant, however, Fair leaves the streak unchanged (only Poor
resets it), an Excellent or Good tick increments the streak and updates the
best only when exceeded, and an achievement fires exactly when the updated
streak is a new best equal to exactly 60 or 300 — not at every multiple
of 60. -/
theorem c2_streak_tick_semantics (s best : ℕ) :
    (WebApp.streakTick s .Excellent = (s + 1, (s + 1) % 60 == 0)) ∧
    (WebApp.streakTick s .Good = (s + 1, (s + 1) % 60 == 0)) ∧
    (WebApp.streakTick s .Fair = (0, false)) ∧
    (WebApp.streakTick s .Poor = (0, false)) ∧
    ((WebApp.streakTick s .Good).2 = true ↔ (s + 1) % 60 = 0) ∧
    (FitnessApp.streakTick s best .Excellent =
      if best < s + 1 then (s + 1, s + 1, s + 1 == 60 || s + 1 == 300)
      else (s + 1, best, false)) ∧
    (FitnessApp.streakTick s best .Good =
      if best < s + 1 then (s + 1, s + 1, s + 1 == 60 || s + 1 == 300)
      else (s + 1, best, false)) ∧
    (FitnessApp.streakTick s best .Fair = (s, best, false)) ∧
    (FitnessApp.streakTick s best .Poor = (0, best, false)) ∧
    ((FitnessApp.streakTick s best .Good).1 = s + 1) ∧
    ((FitnessApp.streakTick s best .Excellent).2.2 = true ↔
      best < s + 1 ∧ (s + 1 = 60 ∨ s + 1 = 300)) ∧
    ((FitnessApp.streakTick s best .Good).2.2 = true ↔
      best < s + 1 ∧ (s + 1 = 60 ∨ s + 1 = 300)) := by
  refine ⟨rfl, rfl, rfl, rfl, ?_, ?_, ?_, rfl, rfl, ?_, ?_, ?_⟩
  · simp [WebApp.streakTick]
  · by_cases hb : best < s + 1 <;> simp [FitnessApp.streakTick, hb]
  · by_cases hb : best < s + 1 <;> simp [FitnessApp.streakTick, hb]
  · by_cases hb : best < s + 1 <;> simp [FitnessApp.streakTick, hb]
  · by_cases hb : best < s + 1 <;> simp [FitnessApp.streakTick, hb]
  · by_cases hb : best < s + 1 <;> simp [FitnessApp.streakTick, hb]

/-- Counterexample to C2 as stated: in the part_001 streak tracker a Fair
tick does not reset the streak to 0 — a streak of 5 stays 5. -/
theorem c2_fair_hold_counterexample :
    FitnessApp.streakTick 5 10 PostureState.Fair = (5, 10, false) ∧
    (5 : ℕ) ≠ 0 := by decide

/-- Claim C4 (confirmed).  Folding a sealed session into the daily summary
creates the row from the session's totals when the date has no row yet, and
otherwise adds the session's totals to every counter (additive update,
never a wholesale overwrite); after a single fold the summary reproduces
the session's good/bad totals. -/
theorem c4_daily_summary_additive_fold (s : FlutterApp.DailySummary)
    (stats : FlutterApp.SessionStats) :
    (FlutterApp.updateDailySummary none stats =
      ⟨1, stats.totalDuration, stats.goodPostureTime, stats.badPostureTime,
        stats.badPostureTime / 60⟩) ∧
    ((FlutterApp.updateDailySummary (some s) stats).totalSessions =
      s.totalSessions + 1) ∧
    ((FlutterApp.updateDailySummary (some s) stats).totalDuration =
      s.totalDuration + stats.totalDuration) ∧
    ((FlutterApp.updateDailySummary (some s) stats).goodPostureTime =
      s.goodPostureTime + stats.goodPostureTime) ∧
    ((FlutterApp.updateDailySummary (some s) stats).badPostureTime =
      s.badPostureTime + stats.badPostureTime) ∧
    ((FlutterApp.updateDailySummary none stats).goodPostureTime =
      stats.goodPostureTime) ∧
    ((FlutterApp.updateDailySummary none stats).badPostureTime =
      stats.badPostureTime) :=
  ⟨rfl, rfl, rfl, rfl, rfl, rfl, rfl⟩

/-- The session timer's counters after any prefix: total time advances by
the number of ticks, and the good/bad counters by the number of good/bad
ticks. -/
theorem runSession_counters (l : List FwStatus) :
    ∀ a : FlutterApp.SessionAcc,
      (l.foldl FlutterApp.sessionTick a).sessionTime =
        a.sessionTime + l.length ∧
      (l.foldl FlutterApp.sessionTick a).goodPostureSeconds =
        a.goodPostureSeconds + l.count .good ∧
      (l.foldl FlutterApp.sessionTick a).badPostureSeconds =
        a.badPostureSeconds + l.count .bad := by
  induction l with
  | nil => intro a; simp
  | cons hd tl ih =>
    intro a
    have h := ih (FlutterApp.sessionTick a hd)
    cases hd <;>
      simp_all [FlutterApp.sessionTick, List.count_cons] <;> omega

/-- Every tick has exactly one of the three statuses. -/
theorem fwStatus_count_partition (l : List FwStatus) :
    l.count .good + l.count .mild + l.count .bad = l.length := by
  induction l with
  | nil => simp
  | cons hd tl ih => cases hd <;> simp_all [List.count_cons] <;> omega

/-- The summary screen's per-state counters sum to the number of points. -/
theorem summaryStats_partition (hist : List SlouchApp.PointRec) :
    ∀ a : SlouchApp.SummaryAcc,
      (hist.foldl SlouchApp.summaryTick a).badTime +
        (hist.foldl SlouchApp.summaryTick a).mildTime +
        (hist.foldl SlouchApp.summaryTick a).goodTime =
      a.badTime + a.mildTime + a.goodTime + hist.length := by
  induction hist with
  | nil => intro a; simp
  | cons hd tl ih =>
    intro a
    simp only [List.foldl_cons]
    rw [ih (SlouchApp.summaryTick a hd)]
    unfold SlouchApp.summaryTick
    split_ifs <;> simp <;> omega

/-- Claim C5 (confirmed).  In the Flutter session timer, every second is
counted once in the total and falls into exactly one state bucket: good
seconds plus bad seconds plus the (untracked) mild seconds equal the total
session duration.  The part_002 summary screen tracks all three buckets and
they likewise sum to the total. -/
theorem c5_time_accounting :
    (∀ l : List FwStatus,
      (FlutterApp.runSession l).goodPostureSeconds +
        (FlutterApp.runSession l).badPostureSeconds + l.count .mild =
        (FlutterApp.runSession l).sessionTime ∧
      (FlutterApp.runSession l).sessionTime = l.length) ∧
    (∀ hist : List SlouchApp.PointRec,
      (SlouchApp.summaryStats hist).goodTime +
        (SlouchApp.summaryStats hist).mildTime +
        (SlouchApp.summaryStats hist).badTime = hist.length) := by
  constructor
  · intro l
    have h := runSession_counters l ⟨0, 0, 0⟩
    have hp := fwStatus_count_partition l
    simp only [] at h
    simp at h
    unfold FlutterApp.runSession
    omega
  · intro hist
    have h := summaryStats_partition hist ⟨0, 0, 0⟩
    simp at h
    unfold SlouchApp.summaryStats
    omega

/-- Claim C7 (confirmed).  With blend coefficient 1 the complementary
filter step is exactly `prior + gyroRate * dt`, and iterating it over any
sample sequence yields the initial angle plus the sum of `gyroRate * dt`
(pure gyro integration). -/
theorem c7_pure_gyro_integration :
    (∀ prior rate dt acc : ℚ,
      Firmware.fuse 1 prior rate dt acc = prior + rate * dt) ∧
    (∀ (a0 : ℚ) (l : List Firmware.FuseSample),
      Firmware.fuseRun 1 a0 l =
        a0 + (l.map fun s => s.gyroRate * s.dt).sum) := by
  constructor
  · intro prior rate dt acc
    unfold Firmware.fuse
    ring
  · intro a0 l
    induction l generalizing a0 with
    | nil => simp [Firmware.fuseRun]
    | cons s rest ih =>
      simp only [Firmware.fuseRun, ih, Firmware.fuse, List.map_cons,
        List.sum_cons]
      ring

/-- Claim C10 (confirmed).  Each loop iteration drives the motor pin from
that iteration's calibrated angles alone: HIGH exactly when
`|final_roll| > 40` or `|final_pitch| > 40`, LOW otherwise — the decision
is a pure function of the current angles, with no dwell, hysteresis or
cooldown state. -/
theorem c10_motor_threshold (radToDeg pitch_offset roll_offset : ℚ)
    (st : Firmware.LoopState) (inp : Firmware.LoopInput) (r p : ℚ) :
    ((Firmware.loopStep radToDeg pitch_offset roll_offset st inp).motor =
      Firmware.motorCheck
        (Firmware.loopStep radToDeg pitch_offset roll_offset st inp).final_roll
        (Firmware.loopStep radToDeg pitch_offset roll_offset st inp).final_pitch) ∧
    (Firmware.motorCheck r p = true ↔ 40 < |r| ∨ 40 < |p|) ∧
    (Firmware.motorCheck r p = false ↔ |r| ≤ 40 ∧ |p| ≤ 40) := by
  refine ⟨rfl, ?_, ?_⟩ <;> simp [Firmware.motorCheck, not_lt]

/-- Once a notification is set, a tick never raises another alert and the
notification stays set. -/
theorem alertTick_notified (st : SlouchApp.AlertState) (s : FwStatus) (t : ℕ)
    (h : st.notification = true) :
    (SlouchApp.alertTick st s t).1.notification = true ∧
    (SlouchApp.alertTick st s t).2 = false := by
  obtain ⟨bs, notif⟩ := st
  cases s <;> cases bs <;> simp_all [SlouchApp.alertTick]

/-- A tick that raises an alert sets the notification. -/
theorem alertTick_warn_notifies (st : SlouchApp.AlertState) (s : FwStatus)
    (t : ℕ) (h : (SlouchApp.alertTick st s t).2 = true) :
    (SlouchApp.alertTick st s t).1.notification = true := by
  obtain ⟨bs, notif⟩ := st
  cases s <;> cases bs <;> simp_all [SlouchApp.alertTick] <;>
    split_ifs at h <;> simp_all

/-- After a notification is set, the rest of the session raises no alert. -/
theorem runAlert_nil_of_notified (l : List (FwStatus × ℕ)) :
    ∀ st : SlouchApp.AlertState, st.notification = true →
      SlouchApp.runAlert st l = [] := by
  induction l with
  | nil => intro st _; rfl
  | cons p rest ih =>
    intro st h
    obtain ⟨s, t⟩ := p
    have ha := alertTick_notified st s t h
    simp only [SlouchApp.runAlert]
    rw [ha.2, ih _ ha.1]
    rfl

/-- The part_002 notification logic raises at most one alert per session,
from any starting state. -/
theorem runAlert_length_le_one (l : List (FwStatus × ℕ)) :
    ∀ st : SlouchApp.AlertState, (SlouchApp.runAlert st l).length ≤ 1 := by
  induction l with
  | nil => intro st; simp [SlouchApp.runAlert]
  | cons p rest ih =>
    intro st
    obtain ⟨s, t⟩ := p
    simp only [SlouchApp.runAlert]
    by_cases hw : (SlouchApp.alertTick st s t).2 = true
    · rw [hw, runAlert_nil_of_notified rest _ (alertTick_warn_notifies st s t hw)]
      simp
    · rw [Bool.not_eq_true] at hw
      rw [hw]
      simpa using ih (SlouchApp.alertTick st s t).1

/-- A bad run witnessed in the tail of a trace is witnessed in the trace. -/
theorem containsBadRun_cons (p : FwStatus × ℕ) (t : ℕ)
    (l : List (FwStatus × ℕ)) (h : SlouchApp.ContainsBadRun t l) :
    SlouchApp.ContainsBadRun t (p :: l) := by
  obtain ⟨tail, t0, hsuf, hhead, hlt, hlead⟩ := h
  exact ⟨tail, t0, hsuf.trans (List.suffix_cons p l), hhead, hlt, hlead⟩


/-- A non-bad tick raises no alert and clears the bad-posture start time. -/
theorem alertTick_not_bad (st : SlouchApp.AlertState) (s : FwStatus) (t : ℕ)
    (hs : s ≠ .bad) :
    (SlouchApp.alertTick st s t).2 = false ∧
    (SlouchApp.alertTick st s t).1.badPostureStartTime = none := by
  obtain ⟨bs, notif⟩ := st
  cases s <;> cases bs <;> simp_all [SlouchApp.alertTick]

/-- The first bad tick records the start time and raises nothing. -/
theorem alertTick_bad_none (notif : Bool) (t : ℕ) :
    SlouchApp.alertTick ⟨none, notif⟩ .bad t = (⟨some t, notif⟩, false) :=
  rfl

/-- A bad tick past the minimum duration with no notification set raises
the alert. -/
theorem alertTick_bad_some_warn (t0 t : ℕ)
    (hgt : SlouchApp.NOTIFY_DURATION_MS < t - t0) :
    SlouchApp.alertTick ⟨some t0, false⟩ .bad t = (⟨some t0, true⟩, true) := by
  simp [SlouchApp.alertTick, hgt]

/-- A bad tick within the minimum duration leaves the state unchanged and
raises nothing. -/
theorem alertTick_bad_some_nowarn (t0 t : ℕ) (notif : Bool)
    (hle : ¬ SlouchApp.NOTIFY_DURATION_MS < t - t0) :
    SlouchApp.alertTick ⟨some t0, notif⟩ .bad t =
      (⟨some t0, notif⟩, false) := by
  simp [SlouchApp.alertTick, hle]

/-- A tick that raises no alert contributes nothing to the alert list. -/
theorem runAlert_cons_no_warn (st : SlouchApp.AlertState) (s : FwStatus)
    (t : ℕ) (rest : List (FwStatus × ℕ))
    (h : (SlouchApp.alertTick st s t).2 = false) :
    SlouchApp.runAlert st ((s, t) :: rest) =
      SlouchApp.runAlert (SlouchApp.alertTick st s t).1 rest := by
  simp [SlouchApp.runAlert, h]

/-- A tick that raises the alert is the session's last alert. -/
theorem runAlert_cons_warn (st : SlouchApp.AlertState) (s : FwStatus)
    (t : ℕ) (rest : List (FwStatus × ℕ))
    (h : (SlouchApp.alertTick st s t).2 = true) :
    SlouchApp.runAlert st ((s, t) :: rest) = [t] := by
  have hn := alertTick_warn_notifies st s t h
  simp [SlouchApp.runAlert, h, runAlert_nil_of_notified rest _ hn]

/-- Every alert raised by the part_002 notification logic is explained
either by a pending bad run recorded in the starting state or by a run of
consecutive bad ticks inside the trace whose start lies more than
`NOTIFY_DURATION_MS` before the alert's timestamp. -/
theorem runAlert_warn_has_bad_run (l : List (FwStatus × ℕ)) :
    ∀ (st : SlouchApp.AlertState) (t : ℕ), t ∈ SlouchApp.runAlert st l →
      (∃ t0, st.badPostureStartTime = some t0 ∧
        t0 + SlouchApp.NOTIFY_DURATION_MS < t ∧
        SlouchApp.badLead t l = true) ∨
      SlouchApp.ContainsBadRun t l := by
  induction l with
  | nil => intro st t h; simp [SlouchApp.runAlert] at h
  | cons p rest ih =>
    intro st t h
    obtain ⟨s, tp⟩ := p
    obtain ⟨bs, notif⟩ := st
    by_cases hn : notif = true
    · rw [runAlert_nil_of_notified _ _ hn] at h
      simp at h
    · replace hn : notif = false := by simpa using hn
      subst hn
      by_cases hs : s = FwStatus.bad
      · subst hs
        cases bs with
        | none =>
          rw [runAlert_cons_no_warn _ _ _ _
            (by rw [alertTick_bad_none])] at h
          rw [alertTick_bad_none] at h
          rcases ih _ t h with ⟨t0, habs, hlt, hlead⟩ | hB
          · have ht0 : t0 = tp := by simpa using habs.symm
            subst ht0
            exact Or.inr ⟨(FwStatus.bad, t0) :: rest, t0,
              List.suffix_refl _, rfl, hlt,
              by simp [SlouchApp.badLead, hlead]⟩
          · exact Or.inr (containsBadRun_cons _ t rest hB)
        | some t0 =>
          by_cases hgt : SlouchApp.NOTIFY_DURATION_MS < tp - t0
          · rw [runAlert_cons_warn _ _ _ _
              (by rw [alertTick_bad_some_warn t0 tp hgt])] at h
            have ht : t = tp := by simpa using h
            subst ht
            refine Or.inl ⟨t0, rfl, by omega, by simp [SlouchApp.badLead]⟩
          · rw [runAlert_cons_no_warn _ _ _ _
              (by rw [alertTick_bad_some_nowarn t0 tp false hgt])] at h
            rw [alertTick_bad_some_nowarn t0 tp false hgt] at h
            rcases ih _ t h with ⟨t0', habs, hlt, hlead⟩ | hB
            · have ht0 : t0 = t0' := by simpa using habs
              subst ht0
              exact Or.inl ⟨t0, rfl, hlt,
                by simp [SlouchApp.badLead, hlead]⟩
            · exact Or.inr (containsBadRun_cons _ t rest hB)
      · have hnb := alertTick_not_bad ⟨bs, false⟩ s tp hs
        rw [runAlert_cons_no_warn _ _ _ _ hnb.1] at h
        rcases ih _ t h with ⟨t0, habs, _⟩ | hB
        · rw [hnb.2] at habs
          exact absurd habs (by simp)
        · exact Or.inr (containsBadRun_cons _ t rest hB)

/-- Claim C3 (amended).  The part_002 notification logic never warns
without a run of consecutive bad ticks that began more than
`NOTIFY_DURATION_MS` (3000 ms) before the warning — in particular a single
one-second bad dip inside an otherwise good stream produces no warning —
and it raises at most one warning per session, so no two warnings ever
occur within any cooldown.  The part_000 Bluetooth path, by contrast, has
no minimum-duration or cooldown state: a single `bad` reading fires its
notification whenever the fresh random draw exceeds 0.95. -/
theorem c3_alert_policy :
    (∀ (l : List (FwStatus × ℕ)) (t : ℕ),
      t ∈ SlouchApp.runAlert SlouchApp.initAlert l →
        SlouchApp.ContainsBadRun t l) ∧
    (∀ l : List (FwStatus × ℕ),
      (SlouchApp.runAlert SlouchApp.initAlert l).length ≤ 1) ∧
    FlutterApp.btNotifyRun
        [(.good, 1/2), (.bad, 96/100), (.good, 1/2)] =
      [false, true, false] := by
  refine ⟨?_, ?_, ?_⟩
  case refine_3 =>
    simp only [FlutterApp.btNotifyRun, List.map, FlutterApp.btNotify]
    norm_num
  · intro l t h
    rcases runAlert_warn_has_bad_run l SlouchApp.initAlert t h with
      ⟨t0, habs, _⟩ | hB
    · exact absurd habs (by simp [SlouchApp.initAlert])
    · exact hB
  · intro l
    exact runAlert_length_le_one l SlouchApp.initAlert

/-- Counterexample to C3 as stated: in the part_000 Bluetooth listener a
single `bad` reading — a Poor run of length 1, shorter than any
`minDurationSec > 1` — fires the notification when the random draw is
0.96, and the path keeps no cooldown or duration state at all. -/
theorem c3_single_bad_reading_counterexample :
    FlutterApp.btNotify FwStatus.bad (96 / 100) = true ∧
    FlutterApp.btNotifyRun [(.bad, 96 / 100)] = [true] := by
  constructor
  · simp only [FlutterApp.btNotify, beq_self_eq_true, Bool.true_and,
      decide_eq_true_eq]
    norm_num
  · simp only [FlutterApp.btNotifyRun, List.map, FlutterApp.btNotify,
      beq_self_eq_true, Bool.true_and, decide_eq_true_eq]
    norm_num

/-- Claim C6 (amended).  The part_002 top-bad-moments list has length at
most 3, is ordered by decreasing `|angle|`, contains only points that were
classified Bad, and any Bad point left out has `|angle|` no larger than
every listed one.  Ties in `|angle|` keep their original chronological
order (JavaScript's sort is stable), i.e. the OLDER moment ranks first,
and points not classified Bad are excluded even when their `|angle|` is
among the greatest. -/
theorem c6_top_bad_moments (hist : List SlouchApp.PointRec) :
    (SlouchApp.topBadMoments hist).length ≤ 3 ∧
    List.Sorted SlouchApp.worstOrder (SlouchApp.topBadMoments hist) ∧
    (∀ p ∈ SlouchApp.topBadMoments hist, p.status = .bad) ∧
    (∀ q ∈ hist.filter (fun p => p.status == FwStatus.bad),
      q ∈ SlouchApp.topBadMoments hist ∨
        ∀ p ∈ SlouchApp.topBadMoments hist, |q.angle| ≤ |p.angle|) := by
  refine ⟨?_, ?_, ?_, ?_⟩
  · exact List.length_take_le 3 _
  · exact List.Pairwise.sublist (List.take_sublist 3 _)
      (List.sorted_insertionSort SlouchApp.worstOrder _)
  · intro p hp
    have hmem : p ∈ (hist.filter fun q => q.status == FwStatus.bad) :=
      ((List.perm_insertionSort SlouchApp.worstOrder _).mem_iff).mp
        (List.mem_of_mem_take hp)
    simpa using List.of_mem_filter hmem
  · intro q hq
    by_cases hin : q ∈ SlouchApp.topBadMoments hist
    · exact Or.inl hin
    · refine Or.inr fun p hp => ?_
      have hsorted := List.sorted_insertionSort SlouchApp.worstOrder
        (hist.filter fun r => r.status == FwStatus.bad)
      set srt := (hist.filter fun r => r.status == FwStatus.bad).insertionSort
        SlouchApp.worstOrder with hsrt
      have hqs : q ∈ srt :=
        ((List.perm_insertionSort SlouchApp.worstOrder _).mem_iff).mpr hq
      have hsplit : srt.take 3 ++ srt.drop 3 = srt := List.take_append_drop 3 srt
      have hqd : q ∈ srt.drop 3 := by
        rcases (List.mem_append).mp (hsplit ▸ hqs) with hqt | hqd
        · exact absurd hqt hin
        · exact hqd
      have hpair : List.Pairwise SlouchApp.worstOrder
          (srt.take 3 ++ srt.drop 3) := hsplit.symm ▸ hsorted
      exact (List.pairwise_append.mp hpair).2.2 p hp q hqd

/-- Counterexample to C6 as stated: two Bad moments with equal `|angle|`
keep their chronological order — the OLDER one (t = 1) is ranked first,
not the more recent one (t = 2); and a point whose `|angle|` is the
greatest recorded is omitted entirely when its status is not Bad. -/
theorem c6_tie_order_counterexample :
    SlouchApp.topBadMoments [⟨1, 25, .bad⟩, ⟨2, -25, .bad⟩] =
      [⟨1, 25, .bad⟩, ⟨2, -25, .bad⟩] ∧
    |(25 : ℚ)| = |(-25 : ℚ)| ∧
    (SlouchApp.topBadMoments [⟨1, 25, .bad⟩, ⟨2, -25, .bad⟩]).head? ≠
      some ⟨2, -25, .bad⟩ ∧
    SlouchApp.topBadMoments [⟨1, 15, .mild⟩] = [] := by decide

/-- Accumulating two running sums over a list is summing the two mapped
lists. -/
theorem foldl_pair_add (f g : Firmware.AccelSample → ℚ)
    (l : List Firmware.AccelSample) :
    ∀ ab : ℚ × ℚ,
      l.foldl (fun acc s => (acc.1 + f s, acc.2 + g s)) ab =
        (ab.1 + (l.map f).sum, ab.2 + (l.map g).sum) := by
  induction l with
  | nil => intro ab; simp
  | cons s rest ih =>
    intro ab
    simp only [List.foldl_cons, List.map_cons, List.sum_cons, ih]
    rw [Prod.ext_iff]
    constructor <;> simp <;> ring

/-- Claim C8 (confirmed).  Calibration reads exactly `num_readings = 500`
samples, computes the accelerometer-only tilt of each with
`pitch = atan2(-ax, sqrt(ay^2 + az^2))` and `roll = atan2(ay, az)`, and
returns the arithmetic mean of the per-sample values: the sum over the
window of 500 divided by 500.  Samples beyond the window never influence
the result. -/
theorem c8_calibration_mean (at2 : ℚ → ℚ → ℚ) (sq : ℚ → ℚ)
    (src1 src2 : ℕ → Firmware.AccelSample)
    (h : ∀ i, i < Firmware.num_readings → src1 i = src2 i) :
    Firmware.calibrateSensor at2 sq src1 =
      (((List.range Firmware.num_readings).map
          (fun i => Firmware.accPitch at2 sq (src1 i))).sum / 500,
       ((List.range Firmware.num_readings).map
          (fun i => Firmware.accRoll at2 (src1 i))).sum / 500) ∧
    ((List.range Firmware.num_readings).map
        (fun i => Firmware.accPitch at2 sq (src1 i))).length = 500 ∧
    Firmware.calibrateSensor at2 sq src1 =
      Firmware.calibrateSensor at2 sq src2 := by
  have hmaps : (List.range Firmware.num_readings).map src1 =
      (List.range Firmware.num_readings).map src2 :=
    List.map_congr_left fun i hi => h i (List.mem_range.mp hi)
  refine ⟨?_, by simp [Firmware.num_readings], ?_⟩
  · simp only [Firmware.calibrateSensor]
    rw [foldl_pair_add]
    simp [List.map_map, Function.comp_def, Firmware.num_readings]
  · simp only [Firmware.calibrateSensor]
    rw [hmaps]

/-- Witness for C8 at concrete inputs: two sample sources that agree on
the first 500 indices (and differ beyond) calibrate identically. -/
theorem c8_calibration_mean_witness :
    Firmware.calibrateSensor (fun y _ => y) id (fun _ => ⟨0, 0, 0⟩) =
      Firmware.calibrateSensor (fun y _ => y) id
        (fun i => if 500 ≤ i then ⟨1, 2, 3⟩ else ⟨0, 0, 0⟩) :=
  (c8_calibration_mean (fun y _ => y) id (fun _ => ⟨0, 0, 0⟩)
    (fun i => if 500 ≤ i then ⟨1, 2, 3⟩ else ⟨0, 0, 0⟩)
    (fun i hi => by
      have hni : ¬ (500 ≤ i) := by
        unfold Firmware.num_readings at hi
        omega
      simp [hni])).2.2
